import Mathlib

/-!
Shallow embedding of `src/mbgl/style/expression/distance.cpp` (the distance
expression of mapbox-gl-native): the segment intersection test, the
shortest-distance algorithms, the geometry dispatch layer, argument parsing,
evaluation, and serialization, together with theorems settling the frozen
claims about them.

Coordinates are embedded as rationals.  The external `CheapRuler` metric
(`<mapbox/cheap_ruler.hpp>`, not part of this repository) is modelled from the
spec as an exact planar metric; we use the squared Euclidean distance, which
keeps every computation inside `ℚ`.  Squaring is strictly monotone on
non-negative reals, so minima, comparisons with zero, and all the structural
claims (early exits, sentinels, infinities) are unaffected by this choice.
Distance accumulators live in `WithTop ℚ`, whose `⊤` plays the role of
`std::numeric_limits<double>::infinity()`.
-/

namespace Mbgl

/-- A 2-D coordinate, `mapbox::geometry::point<double>` with rational
coordinates. -/
structure Point where
  x : ℚ
  y : ℚ
deriving DecidableEq

/-- The geometry variant `Feature::geometry_type`
(`mapbox::geometry::geometry<double>`): point, multi-point, line string,
multi-line string, and the shapes the distance expression does not support
(polygon, multi-polygon). -/
inductive Geometry where
  | point (p : Point)
  | multiPoint (ps : List Point)
  | lineString (ls : List Point)
  | multiLineString (lss : List (List Point))
  | polygon (rings : List (List Point))
  | multiPolygon (polys : List (List (List Point)))

/-- The unit selector `mapbox::cheap_ruler::CheapRuler::Unit` (restricted to
the values the distance expression can choose). -/
inductive RulerUnit where
  | Meters
  | Kilometers
  | Miles
  | Inches
deriving DecidableEq

/-- The 2-D cross product lambda `perp` from `lineIntersectLine`
(distance.cpp line 22). -/
def perp (v1 v2 : Point) : ℚ := v1.x * v2.y - v1.y * v2.x

/-- The `twoSided` lambda of `lineIntersectLine` (distance.cpp lines 32-51):
whether `p1` and `p2` lie strictly on opposite sides of the line through
`q1`-`q2`, decided by the strict signs of two cross products taken with `q1`
as origin. -/
def twoSided (p1 p2 q1 q2 : Point) : Bool :=
  let x1 := p1.x - q1.x
  let y1 := p1.y - q1.y
  let x2 := p2.x - q1.x
  let y2 := p2.y - q1.y
  let x3 := q2.x - q1.x
  let y3 := q2.y - q1.y
  let ret1 := x1 * y3 - x3 * y1
  let ret2 := x2 * y3 - x3 * y2
  (decide (ret1 > 0) && decide (ret2 < 0)) || (decide (ret1 < 0) && decide (ret2 > 0))

/-- `lineIntersectLine` (distance.cpp lines 21-57): exact crossing test for
the segments `a`-`b` and `c`-`d`. -/
def lineIntersectLine (a b c d : Point) : Bool :=
  let vectorP : Point := ⟨b.x - a.x, b.y - a.y⟩
  let vectorQ : Point := ⟨d.x - c.x, d.y - c.y⟩
  if perp vectorQ vectorP = 0 then false
  else twoSided a b c d && twoSided c d a b

/-- Modelled from the spec (§4.1 Local Distance Metric): the point-to-point
distance of the external `CheapRuler` collaborator, which is not part of this
repository.  We model the planar metric by the squared Euclidean distance so
that every value stays rational; squaring is strictly monotone, so minima and
zero tests are preserved. -/
def sqDist (p q : Point) : ℚ := (p.x - q.x) ^ 2 + (p.y - q.y) ^ 2

/-- Modelled from the spec (§4.1): the nearest point on the segment `a`-`b`
to `p`, the segment case of the external `ruler.pointOnLine` query (clamped
orthogonal projection). -/
def nearestPointOnSegment (p a b : Point) : Point :=
  let dx := b.x - a.x
  let dy := b.y - a.y
  let len2 := dx ^ 2 + dy ^ 2
  if len2 = 0 then a
  else
    let t := max 0 (min 1 (((p.x - a.x) * dx + (p.y - a.y) * dy) / len2))
    ⟨a.x + t * dx, a.y + t * dy⟩

/-- Squared distance from `p` to the segment `a`-`b` (composition of the two
modelled ruler queries, as `shortestDistanceToLine` composes them on a
two-vertex line). -/
def distToSegment (p a b : Point) : ℚ := sqDist p (nearestPointOnSegment p a b)

/-- The consecutive-vertex segments of a line string: the pairs
`(line[i], line[i+1])`. -/
def segPairs (line : List Point) : List (Point × Point) := line.zip line.tail

/-- `shortestDistanceToLine` (distance.cpp lines 59-64): distance from
`point` to its nearest point on `line`, i.e. the minimum over the segments of
`line` of the point-to-segment distance (`⊤` when the line has no segment). -/
def shortestDistanceToLine (point : Point) (line : List Point) : WithTop ℚ :=
  (segPairs line).foldl (fun d s => min d ((distToSegment point s.1 s.2 : ℚ) : WithTop ℚ)) ⊤

/-- Loop body of `shortestDistanceToLines` (distance.cpp lines 70-75):
minimum over the member lines, weaving the running accumulator `dist` through
and returning a zero distance immediately. -/
def shortestDistanceToLinesLoop (point : Point) : List (List Point) → WithTop ℚ → WithTop ℚ
  | [], dist => dist
  | line :: rest, dist =>
    let tempDist := shortestDistanceToLine point line
    if tempDist = 0 then tempDist
    else shortestDistanceToLinesLoop point rest (min dist tempDist)

/-- `shortestDistanceToLines` (distance.cpp lines 66-77): the accumulator
starts at `+infinity` (`⊤`). -/
def shortestDistanceToLines (point : Point) (lines : List (List Point)) : WithTop ℚ :=
  shortestDistanceToLinesLoop point lines ⊤

/-- Loop body of `shortestDistanceToPoints` (distance.cpp lines 83-87). -/
def shortestDistanceToPointsLoop (point : Point) : List Point → WithTop ℚ → WithTop ℚ
  | [], dist => dist
  | p :: rest, dist =>
    let tempDist : WithTop ℚ := ((sqDist point p : ℚ) : WithTop ℚ)
    if tempDist = 0 then tempDist
    else shortestDistanceToPointsLoop point rest (min dist tempDist)

/-- `shortestDistanceToPoints` (distance.cpp lines 79-89): the accumulator
starts at `+infinity` (`⊤`). -/
def shortestDistanceToPoints (point : Point) (points : List Point) : WithTop ℚ :=
  shortestDistanceToPointsLoop point points ⊤

/-- Inner loop of `shortestDistanceLineToLine` (distance.cpp lines 98-106)
over the segments `(q1, q2)` of line2 for a fixed segment `(p1, p2)` of
line1.  `none` models the early `return 0.;` taken when the segments
intersect.  The four accumulated distances are exactly the ones of source
lines 102-105: note that line 105 measures `q1` against `(p1, p2)` a second
time instead of `q2`. -/
def lineToLineInner (p1 p2 : Point) : List (Point × Point) → WithTop ℚ → Option (WithTop ℚ)
  | [], dist => some dist
  | (q1, q2) :: rest, dist =>
    if lineIntersectLine p1 p2 q1 q2 then none
    else
      let dist := min dist ((distToSegment p1 q1 q2 : ℚ) : WithTop ℚ)
      let dist := min dist ((distToSegment p2 q1 q2 : ℚ) : WithTop ℚ)
      let dist := min dist ((distToSegment q1 p1 p2 : ℚ) : WithTop ℚ)
      let dist := min dist ((distToSegment q1 p1 p2 : ℚ) : WithTop ℚ)
      lineToLineInner p1 p2 rest dist

/-- Outer loop of `shortestDistanceLineToLine` (distance.cpp lines 95-107)
over the segments `(p1, p2)` of line1; an early exit of the inner loop
returns `0.` from the whole function. -/
def lineToLineOuter (pairs2 : List (Point × Point)) : List (Point × Point) → WithTop ℚ → WithTop ℚ
  | [], dist => dist
  | (p1, p2) :: rest, dist =>
    match lineToLineInner p1 p2 pairs2 dist with
    | none => 0
    | some dist => lineToLineOuter pairs2 rest dist

/-- `shortestDistanceLineToLine` (distance.cpp lines 91-109). -/
def shortestDistanceLineToLine (line1 line2 : List Point) : WithTop ℚ :=
  lineToLineOuter (segPairs line2) (segPairs line1) ⊤

/-- `pointDistanceToGeometry` (distance.cpp lines 111-126).  The ruler the
source builds from `point.y` and `unit` is abstracted by the modelled metric
(the per-unit scale factor is strictly monotone, so it changes no minimum,
zero test, or sentinel); the fallback branch of source line 125 returns
`+infinity` (`⊤`). -/
def pointDistanceToGeometry (point : Point) (geoSet : Geometry) (unit : RulerUnit) : WithTop ℚ :=
  match geoSet with
  | .point p => ((sqDist point p : ℚ) : WithTop ℚ)
  | .multiPoint points => shortestDistanceToPoints point points
  | .lineString line => shortestDistanceToLine point line
  | .multiLineString lines => shortestDistanceToLines point lines
  | _ => ⊤

/-- Multi-point branch of `lineDistanceToGeometry` (distance.cpp lines
135-141): a plain minimum loop starting at `+infinity`, with no zero early
exit. -/
def multiPointToLineLoop (line : List Point) : List Point → WithTop ℚ → WithTop ℚ
  | [], dist => dist
  | p :: rest, dist => multiPointToLineLoop line rest (min dist (shortestDistanceToLine p line))

/-- Multi-line branch of `lineDistanceToGeometry` (distance.cpp lines
145-153): minimum loop with an early `return 0.;` on a zero distance. -/
def multiLineToLineLoop (line : List Point) : List (List Point) → WithTop ℚ → WithTop ℚ
  | [], dist => dist
  | l :: rest, dist =>
    let tempDist := shortestDistanceLineToLine line l
    if tempDist = 0 then 0
    else multiLineToLineLoop line rest (min dist tempDist)

/-- `lineDistanceToGeometry` (distance.cpp lines 128-155).  The source
asserts `!line.empty()` for its own `line` argument (line 131) before
anchoring the ruler at `line.front().y`; the fallback branch of source line
154 returns the sentinel `-1.0`. -/
def lineDistanceToGeometry (line : List Point) (geoSet : Geometry) (unit : RulerUnit) : WithTop ℚ :=
  match geoSet with
  | .point p => shortestDistanceToLine p line
  | .multiPoint points => multiPointToLineLoop line points ⊤
  | .lineString line1 => shortestDistanceLineToLine line line1
  | .multiLineString lines => multiLineToLineLoop line lines ⊤
  | _ => ((-1 : ℚ) : WithTop ℚ)

/-- `FeatureType` of the evaluated feature and of the parsed reference
geometry.  Modelled from the spec: the spec distinguishes Point, LineString,
the multi shapes (rejected by `evaluate`, §4.5), and the unsupported shape
families. -/
inductive FeatureType where
  | Point
  | MultiPoint
  | LineString
  | MultiLineString
  | Polygon
  | Unknown
deriving DecidableEq

/-- `CanonicalTileID`: the tile identity used by the external coordinate
conversion collaborator. -/
structure CanonicalTileID where
  z : ℕ
  x : ℕ
  y : ℕ
deriving DecidableEq

/-- The evaluated tile feature (`GeometryTileFeature`): it exposes its
geometry type (`getType()`) and, through the external conversion
collaborator, a geographic geometry. -/
structure GeometryTileFeature where
  featureType : FeatureType
  geometry : Geometry

/-- Modelled from the spec (§2, §6): `convertGeometry(feature, canonical)` is
the external collaborator turning the feature's tile-local coordinates into
geographic coordinates; the embedding lets the feature carry the converted
geometry directly. -/
def convertGeometry (feature : GeometryTileFeature) (canonical : CanonicalTileID) : Geometry :=
  feature.geometry

/-- Multi-point branch of `calculateDistance` (distance.cpp lines 166-174):
minimum over member points of `pointDistanceToGeometry`, with a zero early
exit, accumulator starting at `+infinity`. -/
def calcMultiPointLoop (geoSet : Geometry) (unit : RulerUnit) : List Point → WithTop ℚ → WithTop ℚ
  | [], ret => ret
  | p :: rest, ret =>
    let dist := pointDistanceToGeometry p geoSet unit
    if dist = 0 then dist
    else calcMultiPointLoop geoSet unit rest (min ret dist)

/-- Multi-line branch of `calculateDistance` (distance.cpp lines 178-186):
minimum over member lines of `lineDistanceToGeometry`, with a zero early
exit, accumulator starting at `+infinity`. -/
def calcMultiLineLoop (geoSet : Geometry) (unit : RulerUnit) : List (List Point) → WithTop ℚ → WithTop ℚ
  | [], ret => ret
  | line :: rest, ret =>
    let dist := lineDistanceToGeometry line geoSet unit
    if dist = 0 then dist
    else calcMultiLineLoop geoSet unit rest (min ret dist)

/-- `calculateDistance` (distance.cpp lines 157-188): dispatch on the
converted feature geometry; the fallback branch of source line 187 returns
the sentinel `-1.0`. -/
def calculateDistance (feature : GeometryTileFeature) (canonical : CanonicalTileID)
    (geoSet : Geometry) (unit : RulerUnit) : WithTop ℚ :=
  match convertGeometry feature canonical with
  | .point point => pointDistanceToGeometry point geoSet unit
  | .multiPoint points => calcMultiPointLoop geoSet unit points ⊤
  | .lineString line => lineDistanceToGeometry line geoSet unit
  | .multiLineString lines => calcMultiLineLoop geoSet unit lines ⊤
  | _ => ((-1 : ℚ) : WithTop ℚ)

/-- `mbgl::Feature` (a GeoJSON feature): the distance expression only ever
reads its geometry. -/
structure Feature where
  geometry : Geometry

/-- The decoded reference document `GeoJSON`
(`mapbox::geojson::geojson`): a single geometry, a single feature, or a
feature collection. -/
inductive GeoJSON where
  | geometry (g : Geometry)
  | feature (f : Feature)
  | featureCollection (fs : List Feature)

/-- Modelled from the spec (§3, §4.5): the geometry-shape-to-feature-type
classification `ToFeatureType` applied by `getGeometry`; the classifier lives
outside this repository's sources.  Per the spec only Point and LineString
shapes classify as the accepted types; every other shape family carries its
own rejected tag. -/
def toFeatureType : Geometry → FeatureType
  | .point _ => .Point
  | .multiPoint _ => .MultiPoint
  | .lineString _ => .LineString
  | .multiLineString _ => .MultiLineString
  | .polygon _ => .Polygon
  | .multiPolygon _ => .Unknown

/-- `getGeometry` (distance.cpp lines 238-245): accept the feature's geometry
when its type is Point or LineString, otherwise report a parse error
(`none`). -/
def getGeometry (feature : Feature) : Option Geometry :=
  let type := toFeatureType feature.geometry
  if type = FeatureType.Point ∨ type = FeatureType.LineString then some feature.geometry
  else none

/-- The `Distance` expression node (distance.cpp lines 251-255): the raw
reference document, the derived parsed geometry, and the unit. -/
structure Distance where
  geoJSONSource : GeoJSON
  geometries : Geometry
  unit : RulerUnit

/-- One argument position of the `["distance", ...]` expression array.
Modelled from the spec (§4.4, §6): a value is a string, an object (handed to
the external geographic-document decoder, which yields either a decoded
document or an error), or some other kind of value. -/
inductive ArgValue where
  | str (s : String)
  | obj (decoded : Option GeoJSON)
  | other

/-- The raw expression value handed to `parseValue`: either an array of
argument values or some non-array value (`isArray` false). -/
inductive ExprArg where
  | array (xs : List ArgValue)
  | notArray

/-- The conversion API `toString` on an argument value (nullopt on anything
but a string). -/
def toStr : ArgValue → Option String
  | .str s => some s
  | _ => none

/-- The `isObject`/`toGeoJSON` step of `parseValue` (distance.cpp lines
225-232): a non-object argument or a decoder failure is an error (`none`). -/
def decodeObject : ArgValue → Option GeoJSON
  | .obj decoded => decoded
  | _ => none

/-- The unit-selection if-chain of `parseValue` (distance.cpp lines 208-223),
applied to the string `input`: case-sensitive comparisons, starting from the
default Meters. -/
def parseUnitInput (input : String) : RulerUnit :=
  let unit := RulerUnit.Meters
  let unit := if input = "Meters" ∨ input = "Metres" then RulerUnit.Meters else unit
  let unit := if input = "Kilometers" then RulerUnit.Kilometers else unit
  let unit := if input = "Miles" then RulerUnit.Miles else unit
  let unit := if input = "Inches" then RulerUnit.Inches else unit
  unit

/-- `parseValue` (distance.cpp lines 198-236): a non-array value or an array
whose length is neither 2 nor 3 is a parse error; a third member is read
through `toString`, whose failure falls back to the string "Meters"; the
second member must be an object that decodes to a reference document. -/
def parseValue : ExprArg → Option (GeoJSON × RulerUnit)
  | .array [_, a1] =>
    match decodeObject a1 with
    | some geojson => some (geojson, RulerUnit.Meters)
    | none => none
  | .array [_, a1, t] =>
    let input := (toStr t).getD "Meters"
    let unit := parseUnitInput input
    match decodeObject a1 with
    | some geojson => some (geojson, unit)
    | none => none
  | _ => none

/-- The feature-collection loop of `Distance::parse` (distance.cpp lines
298-305): the first feature whose geometry passes `getGeometry` wins; the
error reported for a rejected feature does not stop the scan. -/
def findSupportedGeometry : List Feature → Option Geometry
  | [] => none
  | f :: rest =>
    match getGeometry f with
    | some ret => some ret
    | none => findSupportedGeometry rest

/-- The document dispatch of `Distance::parse` (distance.cpp lines 283-310),
applied after `parseValue` succeeded: build the node from the whole decoded
document together with the extracted geometry. -/
def parseWithGeoJSON (geojson : GeoJSON) (unit : RulerUnit) : Option Distance :=
  match geojson with
  | .geometry g => (getGeometry ⟨g⟩).map (fun ret => Distance.mk geojson ret unit)
  | .feature f => (getGeometry f).map (fun ret => Distance.mk geojson ret unit)
  | .featureCollection fs => (findSupportedGeometry fs).map (fun ret => Distance.mk geojson ret unit)

/-- `Distance::parse` (distance.cpp lines 277-313). -/
def Distance.parse (value : ExprArg) : Option Distance :=
  match parseValue value with
  | none => none
  | some (geojson, unit) => parseWithGeoJSON geojson unit

/-- The evaluation context: an optional feature and an optional tile
identity. -/
structure EvaluationContext where
  feature : Option GeometryTileFeature
  canonical : Option CanonicalTileID

/-- `Distance::evaluate` (distance.cpp lines 261-275): missing feature or
canonical is an evaluation error; a Point or LineString feature delegates to
`calculateDistance`; every other feature type is an evaluation error. -/
def Distance.evaluate (d : Distance) (params : EvaluationContext) : Except String (WithTop ℚ) :=
  match params.feature, params.canonical with
  | some feature, some canonical =>
    if feature.featureType = FeatureType.Point then
      Except.ok (calculateDistance feature canonical d.geometries d.unit)
    else if feature.featureType = FeatureType.LineString then
      Except.ok (calculateDistance feature canonical d.geometries d.unit)
    else Except.error ("distance expression currently only supports feature with Point geometry.")
  | _, _ => Except.error ("distance expression requirs valid feature and canonical information.")

/-- A generic JSON document value (`mapbox::geojson::rapidjson_value`),
modelled from the spec (§4.5): numbers, strings, sequences, keyed mappings,
and the other value kinds (booleans, null). -/
inductive JValue where
  | jnull
  | jbool (b : Bool)
  | jnum (q : ℚ)
  | jstr (s : String)
  | jarr (xs : List JValue)
  | jobj (ms : List (String × JValue))

/-- The expression value model (`mbgl::Value`, restricted to what
`convertValue` can produce): null, numbers, strings, sequences, keyed
mappings. -/
inductive Value where
  | null
  | num (q : ℚ)
  | str (s : String)
  | seq (xs : List Value)
  | map (ms : List (String × Value))

mutual

/-- `convertValue` (distance.cpp lines 315-339): recursive conversion of a
generic document value into the expression value model; value kinds other
than number, string, array, object become the null placeholder. -/
def convertValue : JValue → Value
  | .jnum q => .num q
  | .jstr s => .str s
  | .jarr xs => .seq (convertValues xs)
  | .jobj ms => .map (convertMembers ms)
  | _ => .null

/-- The array loop of `convertValue` (distance.cpp lines 323-328). -/
def convertValues : List JValue → List Value
  | [] => []
  | x :: xs => convertValue x :: convertValues xs

/-- The object-member loop of `convertValue` (distance.cpp lines 331-335). -/
def convertMembers : List (String × JValue) → List (String × Value)
  | [] => []
  | (k, v) :: ms => (k, convertValue v) :: convertMembers ms

end

/-- `Distance::getOperator` (distance.cpp lines 368-370). -/
def Distance.getOperator (d : Distance) : String := "distance"

/-- `Distance::serialize` (distance.cpp lines 341-354), parameterized over
the external document-to-JSON converter `conv`
(`mapbox::geojson::convert`, not part of this repository): when the
converted document is an object, its members are converted into the
serialized map; otherwise an error is logged and the map stays empty.  The
result is always the two-element sequence `[getOperator, map]`. -/
def Distance.serialize (conv : GeoJSON → JValue) (d : Distance) : Value :=
  let value := conv d.geoJSONSource
  let serialized :=
    match value with
    | .jobj ms => convertMembers ms
    | _ => []
  Value.seq [Value.str (d.getOperator), Value.map serialized]

/-!  Claim-side definitions: predicates and quantities named by the claims,
written from the claims' wording so they can be compared with the embedded
source functions. -/

/-- Orientation cross product, following the claim wording for C2: its sign
places `p` on one side of the line through `q1`-`q2`, taken with `q1` as
origin exactly as the source's `twoSided` lambda does. -/
def orient (q1 q2 p : Point) : ℚ :=
  (q2.x - q1.x) * (p.y - q1.y) - (q2.y - q1.y) * (p.x - q1.x)

/-- Cross product of the direction vectors of `a`-`b` and `c`-`d`, following
the claim wording for C2. -/
def crossDirections (a b c d : Point) : ℚ :=
  (b.x - a.x) * (d.y - c.y) - (b.y - a.y) * (d.x - c.x)

/-- Claim-side predicate for C2: `p1` and `p2` lie strictly on opposite
sides of the line through `q1`-`q2`. -/
def strictlyOppositeSides (p1 p2 q1 q2 : Point) : Prop :=
  orient q1 q2 p1 * orient q1 q2 p2 < 0

/-- The four geometry shapes supported by the dispatch layer (claim C3). -/
def isSupportedShape : Geometry → Bool
  | .point _ => true
  | .multiPoint _ => true
  | .lineString _ => true
  | .multiLineString _ => true
  | _ => false

/-- The shapes `getGeometry` accepts at parse time (claim C5): geometry type
Point or LineString. -/
def isParseSupported (g : Geometry) : Bool :=
  decide (toFeatureType g = FeatureType.Point) || decide (toFeatureType g = FeatureType.LineString)

/-- Whether a decoded reference document contains any Point or LineString
geometry reachable by the parse scan (claim C5). -/
def docHasSupported : GeoJSON → Bool
  | .geometry g => isParseSupported g
  | .feature f => isParseSupported f.geometry
  | .featureCollection fs => fs.any (fun f => isParseSupported f.geometry)

/-- The unit-selection table exactly as claim C6 states it: "Meters" and
"Metres" select Meters, "Kilometers" Kilometers, "Miles" Miles, "Inches"
Inches, and any other third argument (including any non-string value)
yields Meters. -/
def claimedUnit : ArgValue → RulerUnit
  | .str s =>
    if s = "Meters" ∨ s = "Metres" then RulerUnit.Meters
    else if s = "Kilometers" then RulerUnit.Kilometers
    else if s = "Miles" then RulerUnit.Miles
    else if s = "Inches" then RulerUnit.Inches
    else RulerUnit.Meters
  | _ => RulerUnit.Meters

/-- The object encoding of the original reference document named by claim
C7: the converted document's members when it is an object, the empty map
otherwise. -/
def objectEncoding (conv : GeoJSON → JValue) (src : GeoJSON) : Value :=
  match conv src with
  | .jobj ms => Value.map (convertMembers ms)
  | _ => Value.map []

/-- The modulus of `size_t` arithmetic, 2 to the power 64. -/
def sizeTModulus : ℕ := 18446744073709551616

/-- The `size_t` loop bound `line.size() - 1` of `shortestDistanceLineToLine`
(distance.cpp lines 95 and 98): unsigned subtraction wraps modulo 2^64, so an
empty line yields 2^64 - 1 rather than 0 (claim C9). -/
def loopBound (line : List Point) : ℕ := (line.length + sizeTModulus - 1) % sizeTModulus

/-!  Helper lemmas shared by the claim theorems. -/

lemma twoSided_eq_true_iff (p1 p2 q1 q2 : Point) :
    twoSided p1 p2 q1 q2 = true ↔ strictlyOppositeSides p1 p2 q1 q2 := by
  have h1 : orient q1 q2 p1 =
      -((p1.x - q1.x) * (q2.y - q1.y) - (q2.x - q1.x) * (p1.y - q1.y)) := by
    unfold orient; ring
  have h2 : orient q1 q2 p2 =
      -((p2.x - q1.x) * (q2.y - q1.y) - (q2.x - q1.x) * (p2.y - q1.y)) := by
    unfold orient; ring
  simp only [twoSided, strictlyOppositeSides, h1, h2, neg_mul_neg, mul_neg_iff,
    Bool.or_eq_true, Bool.and_eq_true, decide_eq_true_eq]

lemma perp_eq_neg_crossDirections (a b c d : Point) :
    perp ⟨d.x - c.x, d.y - c.y⟩ ⟨b.x - a.x, b.y - a.y⟩ = -crossDirections a b c d := by
  unfold perp crossDirections; ring

lemma getGeometry_eq (f : Feature) :
    getGeometry f = if isParseSupported f.geometry = true then some f.geometry else none := by
  by_cases h : toFeatureType f.geometry = FeatureType.Point ∨
      toFeatureType f.geometry = FeatureType.LineString
  · simp [getGeometry, isParseSupported, h]
  · simp [getGeometry, isParseSupported, h]

lemma findSupportedGeometry_eq (fs : List Feature) :
    findSupportedGeometry fs =
      (fs.find? (fun f => isParseSupported f.geometry)).map Feature.geometry := by
  induction fs with
  | nil => rfl
  | cons f rest ih =>
    cases hb : isParseSupported f.geometry with
    | true =>
      rw [findSupportedGeometry, getGeometry_eq, hb]
      simp [List.find?_cons, hb]
    | false =>
      rw [findSupportedGeometry, getGeometry_eq, hb]
      simp [List.find?_cons, hb, ih]

lemma parseUnitInput_eq_claimedUnit (t : ArgValue) :
    parseUnitInput ((toStr t).getD "Meters") = claimedUnit t := by
  cases t with
  | str s =>
    simp only [toStr, Option.getD_some, parseUnitInput, claimedUnit]
    split_ifs <;> simp_all
  | obj decoded => rfl
  | other => rfl

lemma convertValues_eq_map (xs : List JValue) : convertValues xs = xs.map convertValue := by
  induction xs with
  | nil => rfl
  | cons x xs ih => rw [convertValues, ih, List.map_cons]

lemma convertMembers_eq_map (ms : List (String × JValue)) :
    convertMembers ms = ms.map (fun m => (m.1, convertValue m.2)) := by
  induction ms with
  | nil => rfl
  | cons m rest ih => cases m; rw [convertMembers, ih, List.map_cons]

/-!  Claim theorems. -/

/-- Claim C1 (code bug at source line 105): on the non-crossing segments
`(0,0)-(10,0)` and `(5,5)-(5,1)` the function `shortestDistanceLineToLine`
returns the (squared) distance 25 — the distance of `q1 = (5,5)` to the
other segment, accumulated twice by source lines 104-105 — while the minimum
of the four endpoint-to-opposite-segment distances named by the claim is 1,
the distance of `q2 = (5,1)` to `(p1, p2)`, which the loop body never
measures. -/
theorem shortestDistanceLineToLine_at_failing_input :
    lineIntersectLine ⟨0, 0⟩ ⟨10, 0⟩ ⟨5, 5⟩ ⟨5, 1⟩ = false
    ∧ shortestDistanceLineToLine [⟨0, 0⟩, ⟨10, 0⟩] [⟨5, 5⟩, ⟨5, 1⟩] = ((25 : ℚ) : WithTop ℚ)
    ∧ min (min (min (distToSegment ⟨0, 0⟩ ⟨5, 5⟩ ⟨5, 1⟩) (distToSegment ⟨10, 0⟩ ⟨5, 5⟩ ⟨5, 1⟩))
        (distToSegment ⟨5, 5⟩ ⟨0, 0⟩ ⟨10, 0⟩)) (distToSegment ⟨5, 1⟩ ⟨0, 0⟩ ⟨10, 0⟩) = 1
    ∧ ((25 : ℚ) : WithTop ℚ) ≠ ((1 : ℚ) : WithTop ℚ) := by
  refine ⟨by norm_num [lineIntersectLine, twoSided, perp], ?_, ?_, ?_⟩
  · norm_num [shortestDistanceLineToLine, segPairs, lineToLineOuter, lineToLineInner,
      lineIntersectLine, twoSided, perp, distToSegment, nearestPointOnSegment, sqDist,
      min_top_left, min_top_right, ← WithTop.coe_min, WithTop.coe_eq_coe,
      WithTop.coe_le_coe, WithTop.coe_lt_coe]
    norm_cast
  · norm_num [distToSegment, nearestPointOnSegment, sqDist, min_def, max_def]
  · intro h
    exact absurd (WithTop.coe_eq_coe.mp h) (by norm_num)

/-- Claim C2: `lineIntersectLine a b c d` returns true iff the direction
vectors of `a`-`b` and `c`-`d` have a non-zero cross product, `a` and `b`
lie strictly on opposite sides of the line through `c`-`d`, and `c` and `d`
lie strictly on opposite sides of the line through `a`-`b`; in particular a
zero direction cross product (parallel or collinear segments) and a zero
side cross product (an endpoint exactly on the other segment's line) both
force the result false. -/
theorem lineIntersectLine_spec (a b c d : Point) :
    (lineIntersectLine a b c d = true ↔
      crossDirections a b c d ≠ 0 ∧ strictlyOppositeSides a b c d ∧
        strictlyOppositeSides c d a b)
    ∧ (crossDirections a b c d = 0 → lineIntersectLine a b c d = false)
    ∧ (orient c d a = 0 ∨ orient c d b = 0 ∨ orient a b c = 0 ∨ orient a b d = 0 →
        lineIntersectLine a b c d = false) := by
  have hmain : lineIntersectLine a b c d = true ↔
      crossDirections a b c d ≠ 0 ∧ strictlyOppositeSides a b c d ∧
        strictlyOppositeSides c d a b := by
    simp only [lineIntersectLine, perp_eq_neg_crossDirections, neg_eq_zero]
    by_cases hc : crossDirections a b c d = 0
    · simp [hc]
    · simp [hc, Bool.and_eq_true, twoSided_eq_true_iff]
  refine ⟨hmain, ?_, ?_⟩
  · intro hc
    rcases Bool.eq_false_or_eq_true (lineIntersectLine a b c d) with h | h
    · exact absurd (hmain.mp h).1 (by simp [hc])
    · exact h
  · intro hzero
    rcases Bool.eq_false_or_eq_true (lineIntersectLine a b c d) with h | h
    swap
    · exact h
    · exfalso
      obtain ⟨-, hs1, hs2⟩ := hmain.mp h
      unfold strictlyOppositeSides at hs1 hs2
      rcases hzero with h0 | h0 | h0 | h0
      · rw [h0] at hs1; simp at hs1
      · rw [h0] at hs1; simp at hs1
      · rw [h0] at hs2; simp at hs2
      · rw [h0] at hs2; simp at hs2

/-- Witness for C2 at a concrete input: the endpoint `a = (1, 2)` lies
exactly on the line through `c = (1, 0)` and `d = (1, 1)` (side cross
product zero), so the test reports no crossing. -/
theorem lineIntersectLine_spec_witness :
    lineIntersectLine ⟨1, 2⟩ ⟨2, 0⟩ ⟨1, 0⟩ ⟨1, 1⟩ = false :=
  (lineIntersectLine_spec ⟨1, 2⟩ ⟨2, 0⟩ ⟨1, 0⟩ ⟨1, 1⟩).2.2
    (Or.inl (by norm_num [orient]))

/-- Counterexample for C3 as stated: on a polygon reference geometry,
`pointDistanceToGeometry` computes `+infinity` (source line 125), not the
`-1.0` sentinel the claim asserts for all three dispatch functions. -/
theorem pointDistanceToGeometry_polygon_not_sentinel :
    pointDistanceToGeometry ⟨0, 0⟩ (Geometry.polygon []) RulerUnit.Meters = ⊤
    ∧ pointDistanceToGeometry ⟨0, 0⟩ (Geometry.polygon []) RulerUnit.Meters
        ≠ ((-1 : ℚ) : WithTop ℚ) := by
  refine ⟨rfl, ?_⟩
  rw [show pointDistanceToGeometry ⟨0, 0⟩ (Geometry.polygon []) RulerUnit.Meters = ⊤ from rfl]
  exact WithTop.top_ne_coe

/-- Claim C3 (amended): for every geometry whose shape is not Point,
MultiPoint, LineString or MultiLineString, the fallback branches of
`lineDistanceToGeometry` and `calculateDistance` yield the sentinel `-1.0`,
distinct from any genuine zero distance, while the fallback branch of
`pointDistanceToGeometry` yields `+infinity` instead. -/
theorem dispatchFallback_spec (g : Geometry) (h : isSupportedShape g = false) :
    (∀ p u, pointDistanceToGeometry p g u = ⊤)
    ∧ (∀ line u, lineDistanceToGeometry line g u = ((-1 : ℚ) : WithTop ℚ))
    ∧ (∀ t c refGeo u, calculateDistance ⟨t, g⟩ c refGeo u = ((-1 : ℚ) : WithTop ℚ))
    ∧ ((-1 : ℚ) : WithTop ℚ) ≠ 0 ∧ (⊤ : WithTop ℚ) ≠ 0 := by
  have hm1 : ((-1 : ℚ) : WithTop ℚ) ≠ 0 := by
    rw [show (0 : WithTop ℚ) = ((0 : ℚ) : WithTop ℚ) from rfl, Ne, WithTop.coe_eq_coe]
    norm_num
  have ht : (⊤ : WithTop ℚ) ≠ 0 := by
    rw [show (0 : WithTop ℚ) = ((0 : ℚ) : WithTop ℚ) from rfl]
    exact WithTop.top_ne_coe
  cases g <;> simp_all [isSupportedShape, pointDistanceToGeometry, lineDistanceToGeometry,
    calculateDistance, convertGeometry]

/-- Witness for the amended C3 at a concrete polygon input. -/
theorem dispatchFallback_spec_witness :
    lineDistanceToGeometry [⟨0, 0⟩] (Geometry.polygon []) RulerUnit.Meters
      = ((-1 : ℚ) : WithTop ℚ) :=
  (dispatchFallback_spec (Geometry.polygon []) rfl).2.1 [⟨0, 0⟩] RulerUnit.Meters

/-- Claim C4: `Distance.evaluate` returns an evaluation error iff the
context lacks a feature or a tile identity, or the feature's geometry type
is neither Point nor LineString; when both are present and the type is Point
or LineString it returns exactly the number `calculateDistance` produces on
the stored reference geometry and unit. -/
theorem evaluate_spec (d : Distance) (params : EvaluationContext) :
    ((∃ e, d.evaluate params = Except.error e) ↔
      params.feature = none ∨ params.canonical = none ∨
        ∀ f, params.feature = some f →
          f.featureType ≠ FeatureType.Point ∧ f.featureType ≠ FeatureType.LineString)
    ∧ ∀ f c, params.feature = some f → params.canonical = some c →
        (f.featureType = FeatureType.Point ∨ f.featureType = FeatureType.LineString) →
        d.evaluate params = Except.ok (calculateDistance f c d.geometries d.unit) := by
  obtain ⟨feature, canonical⟩ := params
  cases feature with
  | none => simp [Distance.evaluate]
  | some f =>
    cases canonical with
    | none => simp [Distance.evaluate]
    | some c =>
      by_cases hp : f.featureType = FeatureType.Point
      · simp [Distance.evaluate, hp]
      · by_cases hl : f.featureType = FeatureType.LineString
        · simp [Distance.evaluate, hp, hl]
        · simp [Distance.evaluate, hp, hl]

/-- Witness for C4: a context carrying a Point feature and a tile identity
evaluates to the `calculateDistance` number. -/
theorem evaluate_spec_witness :
    Distance.evaluate
        (Distance.mk (GeoJSON.geometry (Geometry.point ⟨0, 0⟩)) (Geometry.point ⟨0, 0⟩)
          RulerUnit.Meters)
        (EvaluationContext.mk (some ⟨FeatureType.Point, Geometry.point ⟨1, 1⟩⟩)
          (some ⟨0, 0, 0⟩)) =
      Except.ok (calculateDistance ⟨FeatureType.Point, Geometry.point ⟨1, 1⟩⟩ ⟨0, 0, 0⟩
        (Geometry.point ⟨0, 0⟩) RulerUnit.Meters) :=
  (evaluate_spec _ _).2 _ _ rfl rfl (Or.inl rfl)

/-- Claim C5: on a feature collection the parse dispatch builds the node
from the first feature whose geometry is Point or LineString (ignoring the
others), and on any document containing no Point or LineString geometry it
fails. -/
theorem parse_firstSupported_spec :
    (∀ fs u, parseWithGeoJSON (GeoJSON.featureCollection fs) u =
      (fs.find? (fun f => isParseSupported f.geometry)).map
        (fun f => Distance.mk (GeoJSON.featureCollection fs) f.geometry u))
    ∧ ∀ doc u, docHasSupported doc = false → parseWithGeoJSON doc u = none := by
  constructor
  · intro fs u
    rw [parseWithGeoJSON, findSupportedGeometry_eq, Option.map_map]
    rfl
  · intro doc u h
    cases doc with
    | geometry g =>
      simp only [docHasSupported] at h
      simp [parseWithGeoJSON, getGeometry_eq, h]
    | feature f =>
      simp only [docHasSupported] at h
      simp [parseWithGeoJSON, getGeometry_eq, h]
    | featureCollection fs =>
      simp only [docHasSupported] at h
      rw [List.any_eq_false] at h
      rw [parseWithGeoJSON, findSupportedGeometry_eq,
        List.find?_eq_none.mpr (fun x hx => by simpa using h x hx)]
      rfl

/-- Witness for C5: a document holding only a polygon geometry parses to
nothing. -/
theorem parse_firstSupported_spec_witness :
    parseWithGeoJSON (GeoJSON.geometry (Geometry.polygon [])) RulerUnit.Meters = none :=
  parse_firstSupported_spec.2 (GeoJSON.geometry (Geometry.polygon [])) RulerUnit.Meters rfl

/-- Claim C6: on a three-element argument list the selected unit is exactly
the case-sensitive table of the claim (with any unrecognized or non-string
third argument silently yielding Meters), on a two-element list it is
Meters, and the third argument never turns a parsable call into a parse
error (success is independent of it). -/
theorem parseValue_unit_spec (a0 a1 t : ArgValue) :
    (parseValue (ExprArg.array [a0, a1, t])).isSome
        = (parseValue (ExprArg.array [a0, a1])).isSome
    ∧ (∀ g u, parseValue (ExprArg.array [a0, a1, t]) = some (g, u) → u = claimedUnit t)
    ∧ (∀ g u, parseValue (ExprArg.array [a0, a1]) = some (g, u) → u = RulerUnit.Meters) := by
  cases hd : decodeObject a1 with
  | none =>
    refine ⟨by simp [parseValue, hd], ?_, ?_⟩ <;> intro g u h <;> simp [parseValue, hd] at h
  | some g0 =>
    refine ⟨by simp [parseValue, hd], ?_, ?_⟩
    · intro g u h
      simp only [parseValue, hd] at h
      rw [← parseUnitInput_eq_claimedUnit]
      exact (Prod.mk.injEq _ _ _ _ ▸ (Option.some_inj.mp h)).2.symm
    · intro g u h
      simp only [parseValue, hd] at h
      exact ((Prod.mk.injEq _ _ _ _ ▸ (Option.some_inj.mp h)).2).symm

/-- Witness for C6 at a concrete three-element call selecting Kilometers. -/
theorem parseValue_unit_spec_witness :
    RulerUnit.Kilometers = claimedUnit (ArgValue.str "Kilometers") :=
  (parseValue_unit_spec (ArgValue.str "distance")
      (ArgValue.obj (some (GeoJSON.geometry (Geometry.point ⟨0, 0⟩))))
      (ArgValue.str "Kilometers")).2.1
    (GeoJSON.geometry (Geometry.point ⟨0, 0⟩)) RulerUnit.Kilometers rfl

/-- Claim C7: `Distance.serialize` is the two-element sequence whose first
element is the operator name "distance" and whose second is the object
encoding of the stored original document; it depends neither on the derived
parsed geometry nor on the configured unit, so the unit is never
re-emitted. -/
theorem serialize_spec (conv : GeoJSON → JValue) (src : GeoJSON) (g g' : Geometry)
    (u u' : RulerUnit) :
    Distance.serialize conv (Distance.mk src g u)
        = Value.seq [Value.str "distance", objectEncoding conv src]
    ∧ Distance.serialize conv (Distance.mk src g u)
        = Distance.serialize conv (Distance.mk src g' u') := by
  constructor
  · simp only [Distance.serialize, Distance.getOperator, objectEncoding]
    cases conv src <;> rfl
  · rfl

/-- Claim C8: `convertValue` maps numbers to numbers, strings to strings,
arrays to sequences of converted elements, objects to keyed mappings of
converted members, and every other value kind to the null placeholder. -/
theorem convertValue_spec :
    (∀ q, convertValue (JValue.jnum q) = Value.num q)
    ∧ (∀ s, convertValue (JValue.jstr s) = Value.str s)
    ∧ (∀ xs, convertValue (JValue.jarr xs) = Value.seq (xs.map convertValue))
    ∧ (∀ ms, convertValue (JValue.jobj ms)
        = Value.map (ms.map (fun m => (m.1, convertValue m.2))))
    ∧ (∀ b, convertValue (JValue.jbool b) = Value.null)
    ∧ convertValue JValue.jnull = Value.null := by
  refine ⟨fun q => rfl, fun s => rfl, ?_, ?_, fun b => rfl, rfl⟩
  · intro xs
    rw [convertValue, convertValues_eq_map]
  · intro ms
    rw [convertValue, convertMembers_eq_map]

/-- Claim C9: for a non-empty line (shorter than 2^64 entries) the `size_t`
loop bound is `length - 1` and every index the loop touches — `i` and
`i + 1` — is in bounds; for an empty line the unsigned bound wraps around to
2^64 - 1, so the first iteration would already access index 0 of a
zero-length vector, out of bounds. -/
theorem loopBound_spec :
    (∀ line : List Point, line ≠ [] → line.length < sizeTModulus →
      loopBound line = line.length - 1
      ∧ ∀ i, i < loopBound line → i < line.length ∧ i + 1 < line.length)
    ∧ loopBound ([] : List Point) = sizeTModulus - 1
    ∧ 0 < loopBound ([] : List Point)
    ∧ ¬ 0 < ([] : List Point).length := by
  refine ⟨?_, ?_, ?_, by simp⟩
  · intro line hne hlt
    have hlen : 1 ≤ line.length := List.length_pos.mpr hne
    unfold loopBound sizeTModulus at *
    constructor
    · omega
    · intro i hi
      omega
  · unfold loopBound sizeTModulus
    simp
  · unfold loopBound sizeTModulus
    simp

/-- Witness for C9 on a concrete two-vertex line. -/
theorem loopBound_spec_witness : loopBound [⟨0, 0⟩, ⟨1, 1⟩] = 1 :=
  (loopBound_spec.1 [⟨0, 0⟩, ⟨1, 1⟩] (List.cons_ne_nil _ _)
    (by unfold sizeTModulus; simp)).1

/-- Claim C10: every minimum-distance loop over an empty collection returns
its untouched `+infinity` accumulator — `shortestDistanceToPoints`,
`shortestDistanceToLines`, the multi-point branch of
`lineDistanceToGeometry`, and the multi-point and multi-line branches of
`calculateDistance` — so `Distance.evaluate` can return `+infinity` as an
ordinary numeric result. -/
theorem emptyCollections_spec :
    (∀ p : Point, shortestDistanceToPoints p [] = ⊤)
    ∧ (∀ p : Point, shortestDistanceToLines p [] = ⊤)
    ∧ (∀ line u, lineDistanceToGeometry line (Geometry.multiPoint []) u = ⊤)
    ∧ (∀ t c geoSet u, calculateDistance ⟨t, Geometry.multiPoint []⟩ c geoSet u = ⊤)
    ∧ (∀ t c geoSet u, calculateDistance ⟨t, Geometry.multiLineString []⟩ c geoSet u = ⊤)
    ∧ ∀ src refGeo u c,
        Distance.evaluate (Distance.mk src refGeo u)
          (EvaluationContext.mk (some ⟨FeatureType.Point, Geometry.multiPoint []⟩) (some c))
          = Except.ok ⊤ :=
  ⟨fun _ => rfl, fun _ => rfl, fun _ _ => rfl, fun _ _ _ _ => rfl, fun _ _ _ _ => rfl,
    fun _ _ _ _ => rfl⟩

end Mbgl
